import Mathlib

/-!
Shallow embedding of `src/proxy/src/control/destination/mod.rs`: the destination
resolution layer (Resolver / Resolution / Responder / Metadata / Update) of the
conduit proxy.  Channels and liveness tokens are modelled as explicit state:
an update channel is a pending list plus a closed flag, the shared request queue
lives in a `World` record together with a set of live liveness-token ids.
-/

namespace Conduit.Destination

/-- Modelled from the spec: `SocketAddr` addresses are opaque endpoint
identifiers produced upstream; only their identity matters here. -/
abbrev SocketAddr := String

/-- Modelled from the spec: an authority (`DnsNameAndPort`, defined outside the
given sources) is an opaque name-and-port key for a resolution request. -/
abbrev Authority := String

/-- Modelled from the spec: `DstLabels` (from `telemetry::metrics`, outside the
given sources) is an opaque string-keyed label mapping; this layer only
inspects single-key lookups on `as_map()`. -/
abbrev DstLabels := List (String × String)

/-- Lookup in the label map, standing for `labels.as_map().get(key)`. -/
def DstLabels.get (labels : DstLabels) (key : String) : Option String :=
  (labels.find? (fun p => p.1 == key)).map Prod.snd

/-- `Metadata` from the source: optional destination labels plus the TLS flag
computed once at construction. -/
structure Metadata where
  dst_labels : Option DstLabels
  supports_tls : Bool
  deriving DecidableEq, Repr

/-- `Metadata::no_metadata`: no labels, TLS unsupported. -/
def Metadata.no_metadata : Metadata :=
  { dst_labels := none, supports_tls := false }

/-- The `Default` impl for `Metadata`, which delegates to `no_metadata`. -/
def Metadata.default : Metadata :=
  Metadata.no_metadata

/-- `Metadata::from_labels`: derives `supports_tls` from the optional label
set by looking up the `meshed` key and comparing its value with `"true"`. -/
def Metadata.from_labels (dst_labels : Option DstLabels) : Metadata :=
  let supports_tls :=
    ((dst_labels.bind fun labels => (labels.get "meshed").map fun v => v == "true").getD false)
  { dst_labels, supports_tls }

/-- `Update` from the source: the wire vocabulary between the background
process and a `Resolution`. -/
inductive Update where
  | Insert (addr : SocketAddr) (meta : Metadata)
  | Remove (addr : SocketAddr)
  | ChangeMetadata (addr : SocketAddr) (meta : Metadata)
  deriving DecidableEq, Repr

/-- Modelled from the spec: an `Endpoint` (from `endpoint.rs`, outside the
given sources) is constructed from an address plus the label portion of
`Metadata`. -/
structure Endpoint where
  addr : SocketAddr
  dst_labels : Option DstLabels
  deriving DecidableEq, Repr

/-- `Endpoint::new(addr, labels)`. -/
def Endpoint.new (addr : SocketAddr) (labels : Option DstLabels) : Endpoint :=
  { addr, dst_labels := labels }

/-- `tower_discover::Change`: the events a `Resolution` hands to the balancer. -/
inductive Change (K S : Type) where
  | Insert (key : K) (service : S)
  | Remove (key : K)
  deriving DecidableEq, Repr

/-- The observable result of one `Resolution::poll` call: suspension
(`Async::NotReady`), one change event, the opaque `Err(())` discovery error,
or a panic via `expect`. -/
inductive PollOutcome (K S : Type) where
  | notReady
  | change (c : Change K S)
  | discoveryError
  | panicked (msg : String)
  deriving DecidableEq, Repr

/-- State of the per-resolution unbounded update channel: updates queued but
not yet received, plus whether the sender side has been dropped (after which
draining the pending items yields end-of-stream). -/
structure UpdateChannel where
  pending : List Update
  closed : Bool
  deriving DecidableEq, Repr

/-- `Resolution::poll` from the source.  `bind` stands for the `Bind`
capability (`fn bind(&self, addr: &Endpoint) -> Result<Service, BindError>`).
The loop body always returns: an empty open channel suspends, an empty closed
channel hits `.expect("destination stream must be infinite")`, an
`Insert`/`ChangeMetadata` head is bound (`Err` mapped to the opaque `()`
discovery error), and a `Remove` head becomes a remove change. -/
def Resolution.poll {ε σ : Type} (bind : Endpoint → Except ε σ) (ch : UpdateChannel) :
    PollOutcome SocketAddr σ × UpdateChannel :=
  match ch.pending with
  | [] =>
      if ch.closed then
        (.panicked "destination stream must be infinite", ch)
      else
        (.notReady, ch)
  | u :: rest =>
      let chRest : UpdateChannel := { ch with pending := rest }
      match u with
      | .Insert addr meta | .ChangeMetadata addr meta =>
          match bind (Endpoint.new addr meta.dst_labels) with
          | .ok service => (.change (.Insert addr service), chRest)
          | .error _ => (.discoveryError, chRest)
      | .Remove addr => (.change (.Remove addr), chRest)

/-- `Responder` from the source: the sender half of the per-resolution update
channel (identified by a channel id) plus the weak liveness witness
(`Weak<()>`, identified by the id of the token it observes). -/
structure Responder where
  update_tx : Nat
  active : Nat
  deriving DecidableEq, Repr

/-- `ResolveRequest` from the source: an authority paired with the responder
that updates for it should be sent on. -/
structure ResolveRequest where
  authority : Authority
  responder : Responder
  deriving DecidableEq, Repr

/-- `Resolution` from the source (its channel/token half): the receiver half
of the update channel, the exclusively owned liveness token (`_active:
Arc<()>`), and the caller-supplied bind value. -/
structure Resolution (B : Type) where
  update_rx : Nat
  _active : Nat
  bind : B

/-- Explicit state standing for the heap and channel plumbing: counters for
fresh channel and token ids, the multiset of liveness tokens whose owning
`Arc` is still alive, the shared request queue contents, and whether the
queue receiver (held by the background task) is still alive. -/
structure World where
  nextChan : Nat
  nextToken : Nat
  liveTokens : List Nat
  requestQueue : List ResolveRequest
  requestReceiverAlive : Bool
  deriving DecidableEq, Repr

/-- Well-formedness of a world: every live token id was allocated before the
fresh-token counter.  Holds for the empty world and is preserved by the
operations modelled here. -/
def World.wf (w : World) : Bool :=
  w.liveTokens.all fun t => t < w.nextToken

/-- `Responder::is_active`: `self.active.upgrade().is_some()`, i.e. the
observed token's owning strong reference has not been dropped. -/
def Responder.is_active (r : Responder) (w : World) : Bool :=
  w.liveTokens.contains r.active

/-- Outcome of an operation that can hit a Rust `expect` panic. -/
inductive PanicOr (α : Type) where
  | ok (a : α)
  | panicked (msg : String)

/-- `Resolver::resolve` from the source: allocate a fresh unbounded update
channel and a fresh liveness token, build the responder from the sender half
and a weak witness, push `ResolveRequest { authority, responder }` onto the
shared request queue with `unbounded_send(..).expect("unbounded can't fail")`
(the send fails only when the receiver was dropped, which panics), and return
the `Resolution` made of the receiver half, the owned token and `bind`. -/
def Resolver.resolve {B : Type} (authority : Authority) (bind : B) (w : World) :
    PanicOr (Resolution B × World) :=
  let update_chan := w.nextChan
  let active := w.nextToken
  let req : ResolveRequest :=
    { authority, responder := { update_tx := update_chan, active } }
  if w.requestReceiverAlive then
    .ok ({ update_rx := update_chan, _active := active, bind },
      { w with
          nextChan := w.nextChan + 1,
          nextToken := w.nextToken + 1,
          liveTokens := active :: w.liveTokens,
          requestQueue := w.requestQueue ++ [req] })
  else
    .panicked "unbounded can't fail"

/-- Dropping a `Resolution`: its strong `Arc<()>` token dies, removing the
token from the live set.  (The update-channel receiver also dies, which is
irrelevant to the liveness witness.) -/
def Resolution.drop {B : Type} (r : Resolution B) (w : World) : World :=
  { w with liveTokens := w.liveTokens.erase r._active }

/-! Theorems about the claims. -/

/-- C1: `Metadata::from_labels(L).supports_tls()` is true exactly when `L` is
present and its label map sends the key `meshed` to the string `true`; an
absent label set, an absent `meshed` key, or any other value gives false. -/
theorem C1_from_labels_supports_tls_iff (L : Option DstLabels) :
    (Metadata.from_labels L).supports_tls = true ↔
      ∃ labels, L = some labels ∧ labels.get "meshed" = some "true" := by
  cases L with
  | none => simp [Metadata.from_labels]
  | some labels =>
      cases h : labels.get "meshed" with
      | none => simp [Metadata.from_labels, h]
      | some v => simp [Metadata.from_labels, h]

/-- C8: `Metadata::no_metadata()` carries no labels, does not support TLS, and
is the same value as `Metadata::default()`. -/
theorem C8_no_metadata_characterisation :
    Metadata.no_metadata.dst_labels = none ∧
      Metadata.no_metadata.supports_tls = false ∧
      Metadata.no_metadata = Metadata.default :=
  ⟨rfl, rfl, rfl⟩

/-- C9: constructing metadata from an absent label set yields structurally the
same value as the dedicated no-metadata constructor, and hence the default. -/
theorem C9_from_labels_none_eq_no_metadata :
    Metadata.from_labels none = Metadata.no_metadata ∧
      Metadata.from_labels none = Metadata.default :=
  ⟨rfl, rfl⟩

/-- C2: with a bind that always succeeds and the update channel delivering
`Insert(A, M1)`, `ChangeMetadata(A, M2)`, `Remove(A)`, three successive polls
yield an insert change for `A` (bound from `M1`'s labels), a second insert
change for `A` (the metadata change is handled identically to an insert,
rebinding the endpoint from `M2`'s labels), then a remove change for `A`. -/
theorem C2_poll_insert_change_remove {σ : Type} (A : SocketAddr) (M1 M2 : Metadata)
    (bindFn : Endpoint → σ) (closed : Bool) :
    let bind : Endpoint → Except Unit σ := fun e => .ok (bindFn e)
    let ch0 : UpdateChannel :=
      { pending := [.Insert A M1, .ChangeMetadata A M2, .Remove A], closed }
    let r1 := Resolution.poll bind ch0
    let r2 := Resolution.poll bind r1.2
    let r3 := Resolution.poll bind r2.2
    r1.1 = .change (.Insert A (bindFn (Endpoint.new A M1.dst_labels))) ∧
      r2.1 = .change (.Insert A (bindFn (Endpoint.new A M2.dst_labels))) ∧
      r3.1 = .change (.Remove A) :=
  ⟨rfl, rfl, rfl⟩

/-- C3: when the next pending update is an `Insert` or `ChangeMetadata` and
binding the constructed endpoint fails, the poll call returns the opaque
discovery error `Err(())` — a payload-free value depending in no way on the
particular bind error — and produces no change event. -/
theorem C3_bind_failure_opaque_error {ε σ : Type} (bind : Endpoint → Except ε σ)
    (ch : UpdateChannel) (addr : SocketAddr) (meta : Metadata) (rest : List Update) (e : ε)
    (hp : ch.pending = .Insert addr meta :: rest ∨
      ch.pending = .ChangeMetadata addr meta :: rest)
    (hb : bind (Endpoint.new addr meta.dst_labels) = .error e) :
    (Resolution.poll bind ch).1 = .discoveryError ∧
      ∀ c : Change SocketAddr σ, (Resolution.poll bind ch).1 ≠ .change c := by
  have hmain : (Resolution.poll bind ch).1 = .discoveryError := by
    rcases hp with hp | hp <;> simp [Resolution.poll, hp, hb]
  exact ⟨hmain, fun c hc => by rw [hmain] at hc; exact PollOutcome.noConfusion hc⟩

/-- C6: a poll that finds the update channel exhausted (no pending update and
the stream closed) takes the explicit panic path of
`.expect("destination stream must be infinite")` — not a normal completion,
suspension, or error value — and as long as the stream is not closed this
panic branch is unreachable. -/
theorem C6_closed_stream_is_fatal {ε σ : Type} (bind : Endpoint → Except ε σ)
    (ch : UpdateChannel) :
    (ch.pending = [] → ch.closed = true →
      (Resolution.poll bind ch).1 =
        (.panicked "destination stream must be infinite" : PollOutcome SocketAddr σ)) ∧
      (ch.closed = false →
        ∀ msg, (Resolution.poll bind ch).1 ≠ (.panicked msg : PollOutcome SocketAddr σ)) := by
  constructor
  · intro hnil hcl
    simp [Resolution.poll, hnil, hcl]
  · intro hopen msg
    match hch : ch.pending with
    | [] => simp [Resolution.poll, hch, hopen]
    | .Insert addr meta :: rest | .ChangeMetadata addr meta :: rest =>
        cases hb : bind (Endpoint.new addr meta.dst_labels) <;>
          simp [Resolution.poll, hch, hb]
    | .Remove addr :: rest => simp [Resolution.poll, hch]

/-- C10: one poll call removes at most one update from the channel — none when
it suspends with nothing ready, and exactly the head one otherwise, so that a
poll whose bind fails has still consumed that update and the next poll starts
at the following one. -/
theorem C10_poll_consumes_at_most_one {ε σ : Type} (bind : Endpoint → Except ε σ)
    (ch : UpdateChannel) :
    ((Resolution.poll bind ch).1 = .notReady → (Resolution.poll bind ch).2 = ch) ∧
      (∀ u rest, ch.pending = u :: rest → (Resolution.poll bind ch).2.pending = rest) ∧
      ((Resolution.poll bind ch).2.pending = ch.pending ∨
        (Resolution.poll bind ch).2.pending = ch.pending.tail) := by
  refine ⟨?_, ?_, ?_⟩
  · intro hnr
    match hch : ch.pending with
    | [] => cases hcl : ch.closed <;> simp [Resolution.poll, hch, hcl]
    | .Insert addr meta :: rest | .ChangeMetadata addr meta :: rest =>
        cases hb : bind (Endpoint.new addr meta.dst_labels) <;>
          simp [Resolution.poll, hch, hb] at hnr
    | .Remove addr :: rest => simp [Resolution.poll, hch] at hnr
  · intro u rest hch
    match u with
    | .Insert addr meta | .ChangeMetadata addr meta =>
        cases hb : bind (Endpoint.new addr meta.dst_labels) <;>
          simp [Resolution.poll, hch, hb]
    | .Remove addr => simp [Resolution.poll, hch]
  · match hch : ch.pending with
    | [] => cases hcl : ch.closed <;> simp [Resolution.poll, hch, hcl]
    | u :: rest =>
        right
        match u with
        | .Insert addr meta | .ChangeMetadata addr meta =>
            cases hb : bind (Endpoint.new addr meta.dst_labels) <;>
              simp [Resolution.poll, hch, hb]
        | .Remove addr => simp [Resolution.poll, hch]

/-- C5: `resolve(authority, bind)` enqueues exactly one `ResolveRequest` on
the shared request queue, carrying the given authority and a responder whose
liveness witness initially reports active, and returns a `Resolution` holding
the matching receiver half of the fresh update channel, the owned liveness
token the witness observes, and the supplied bind value. -/
theorem C5_resolve_enqueues_one_request {B : Type} (authority : Authority) (bind : B)
    (w : World) (halive : w.requestReceiverAlive = true) :
    ∃ (r : Resolution B) (w2 : World) (req : ResolveRequest),
      Resolver.resolve authority bind w = .ok (r, w2) ∧
        w2.requestQueue = w.requestQueue ++ [req] ∧
        req.authority = authority ∧
        req.responder.is_active w2 = true ∧
        r.update_rx = req.responder.update_tx ∧
        r._active = req.responder.active ∧
        r.bind = bind := by
  refine ⟨{ update_rx := w.nextChan, _active := w.nextToken, bind },
    { w with
        nextChan := w.nextChan + 1,
        nextToken := w.nextToken + 1,
        liveTokens := w.nextToken :: w.liveTokens,
        requestQueue := w.requestQueue ++
          [{ authority, responder := { update_tx := w.nextChan, active := w.nextToken } }] },
    { authority, responder := { update_tx := w.nextChan, active := w.nextToken } },
    ?_, rfl, rfl, ?_, rfl, rfl, rfl⟩
  · simp [Resolver.resolve, halive]
  · simp [Responder.is_active]

/-- C7: the push onto the shared unbounded request queue never fails while the
queue's receiving end is alive — `resolve` returns normally — and when the
receiving end has been dropped the failure panics via
`.expect("unbounded can't fail")` rather than surfacing as a recoverable
error value to the caller. -/
theorem C7_unbounded_send_panics_only_when_receiver_dead {B : Type}
    (authority : Authority) (bind : B) (w : World) :
    (w.requestReceiverAlive = true →
      ∃ (r : Resolution B) (w2 : World), Resolver.resolve authority bind w = .ok (r, w2)) ∧
      (w.requestReceiverAlive = false →
        Resolver.resolve authority bind w = .panicked "unbounded can't fail") := by
  constructor
  · intro halive
    refine ⟨{ update_rx := w.nextChan, _active := w.nextToken, bind },
      { w with
          nextChan := w.nextChan + 1,
          nextToken := w.nextToken + 1,
          liveTokens := w.nextToken :: w.liveTokens,
          requestQueue := w.requestQueue ++
            [{ authority, responder := { update_tx := w.nextChan, active := w.nextToken } }] },
      ?_⟩
    simp [Resolver.resolve, halive]
  · intro hdead
    simp [Resolver.resolve, hdead]

/-- C4: for the resolution/responder pair created by one `resolve` call, the
responder's `is_active()` is true at creation, remains true across further
`resolve` calls while the resolution is alive, and is false on every check
after the resolution is dropped — including after later `resolve` calls,
whose fresh tokens never collide with the dropped one. -/
theorem C4_responder_active_iff_resolution_alive {B : Type} (authority : Authority)
    (bind : B) (w : World) (hwf : w.wf = true) (halive : w.requestReceiverAlive = true) :
    ∃ (r : Resolution B) (w2 : World) (req : ResolveRequest),
      Resolver.resolve authority bind w = .ok (r, w2) ∧
        w2.requestQueue.getLast? = some req ∧
        req.responder.active = r._active ∧
        req.responder.is_active w2 = true ∧
        (∀ (B2 : Type) (auth2 : Authority) (bind2 : B2) (r2 : Resolution B2) (w3 : World),
          Resolver.resolve auth2 bind2 w2 = .ok (r2, w3) →
            req.responder.is_active w3 = true) ∧
        req.responder.is_active (Resolution.drop r w2) = false ∧
        (∀ (B2 : Type) (auth2 : Authority) (bind2 : B2) (r2 : Resolution B2) (w3 : World),
          Resolver.resolve auth2 bind2 (Resolution.drop r w2) = .ok (r2, w3) →
            req.responder.is_active w3 = false) := by
  have hfresh : w.liveTokens.contains w.nextToken = false := by
    rw [List.contains_eq_any_beq]
    by_contra hc
    simp only [Bool.not_eq_false, List.any_eq_true] at hc
    obtain ⟨t, ht, hbeq⟩ := hc
    have := List.all_eq_true.mp hwf t ht
    rw [beq_iff_eq] at hbeq
    simp [hbeq] at this
  refine ⟨{ update_rx := w.nextChan, _active := w.nextToken, bind },
    { w with
        nextChan := w.nextChan + 1,
        nextToken := w.nextToken + 1,
        liveTokens := w.nextToken :: w.liveTokens,
        requestQueue := w.requestQueue ++
          [{ authority, responder := { update_tx := w.nextChan, active := w.nextToken } }] },
    { authority, responder := { update_tx := w.nextChan, active := w.nextToken } },
    by simp [Resolver.resolve, halive], by simp, rfl, by simp [Responder.is_active],
    ?_, ?_, ?_⟩
  · intro B2 auth2 bind2 r2 w3 hres
    simp only [Resolver.resolve, halive, if_true, PanicOr.ok.injEq, Prod.mk.injEq] at hres
    obtain ⟨-, hw3⟩ := hres
    rw [← hw3]
    simp [Responder.is_active]
  · simp only [Responder.is_active, Resolution.drop, List.erase_cons_head]
    exact hfresh
  · intro B2 auth2 bind2 r2 w3 hres
    simp only [Resolver.resolve, Resolution.drop, halive, if_true, PanicOr.ok.injEq,
      Prod.mk.injEq, List.erase_cons_head] at hres
    obtain ⟨-, hw3⟩ := hres
    rw [← hw3]
    simp only [Responder.is_active, List.contains_cons]
    rw [hfresh]
    simp only [Bool.or_false]
    rw [beq_eq_false_iff_ne]
    omega

/-! Concrete inputs used to instantiate the theorems above. -/

/-- A bind capability that always succeeds with a trivial service. -/
def bindOkNat : Endpoint → Except Unit Nat := fun _ => .ok 0

/-- A bind capability that always fails. -/
def bindFailNat : Endpoint → Except Unit Nat := fun _ => .error ()

/-- The world right after construction: nothing allocated, background task
(the queue receiver) alive. -/
def emptyWorld : World :=
  { nextChan := 0, nextToken := 0, liveTokens := [], requestQueue := [],
    requestReceiverAlive := true }

/-- A world whose request-queue receiver has been dropped. -/
def deadWorld : World :=
  { emptyWorld with requestReceiverAlive := false }

/-- An open update channel holding one pending insert. -/
def chInsert : UpdateChannel :=
  { pending := [.Insert "10.0.0.1:80" Metadata.no_metadata], closed := false }

/-- An exhausted update channel: nothing pending and the sender dropped. -/
def chClosed : UpdateChannel :=
  { pending := [], closed := true }

/-- An open update channel with nothing pending yet. -/
def chOpenEmpty : UpdateChannel :=
  { pending := [], closed := false }

/-- Witness for C3 at a concrete failing bind and pending insert. -/
theorem C3_witness :
    (Resolution.poll bindFailNat chInsert).1 = .discoveryError ∧
      ∀ c : Change SocketAddr Nat, (Resolution.poll bindFailNat chInsert).1 ≠ .change c :=
  C3_bind_failure_opaque_error bindFailNat chInsert "10.0.0.1:80" Metadata.no_metadata [] ()
    (Or.inl rfl) rfl

/-- Witness for C4 at the freshly constructed world. -/
theorem C4_witness :
    ∃ (r : Resolution Nat) (w2 : World) (req : ResolveRequest),
      Resolver.resolve "svc.ns:80" (7 : Nat) emptyWorld = .ok (r, w2) ∧
        w2.requestQueue.getLast? = some req ∧
        req.responder.active = r._active ∧
        req.responder.is_active w2 = true ∧
        (∀ (B2 : Type) (auth2 : Authority) (bind2 : B2) (r2 : Resolution B2) (w3 : World),
          Resolver.resolve auth2 bind2 w2 = .ok (r2, w3) →
            req.responder.is_active w3 = true) ∧
        req.responder.is_active (Resolution.drop r w2) = false ∧
        (∀ (B2 : Type) (auth2 : Authority) (bind2 : B2) (r2 : Resolution B2) (w3 : World),
          Resolver.resolve auth2 bind2 (Resolution.drop r w2) = .ok (r2, w3) →
            req.responder.is_active w3 = false) :=
  C4_responder_active_iff_resolution_alive "svc.ns:80" 7 emptyWorld rfl rfl

/-- Witness for C5 at the freshly constructed world. -/
theorem C5_witness :
    ∃ (r : Resolution Nat) (w2 : World) (req : ResolveRequest),
      Resolver.resolve "svc.ns:80" (7 : Nat) emptyWorld = .ok (r, w2) ∧
        w2.requestQueue = emptyWorld.requestQueue ++ [req] ∧
        req.authority = "svc.ns:80" ∧
        req.responder.is_active w2 = true ∧
        r.update_rx = req.responder.update_tx ∧
        r._active = req.responder.active ∧
        r.bind = 7 :=
  C5_resolve_enqueues_one_request "svc.ns:80" 7 emptyWorld rfl

/-- Witness for C6: a closed empty stream panics, an open empty one does not. -/
theorem C6_witness :
    (Resolution.poll bindOkNat chClosed).1 =
        (.panicked "destination stream must be infinite" : PollOutcome SocketAddr Nat) ∧
      (Resolution.poll bindOkNat chOpenEmpty).1 ≠
        (.panicked "destination stream must be infinite" : PollOutcome SocketAddr Nat) :=
  ⟨(C6_closed_stream_is_fatal bindOkNat chClosed).1 rfl rfl,
    (C6_closed_stream_is_fatal bindOkNat chOpenEmpty).2 rfl
      "destination stream must be infinite"⟩

/-- Witness for C7: resolve succeeds against a live receiver and panics
against a dropped one. -/
theorem C7_witness :
    (∃ (r : Resolution Nat) (w2 : World),
        Resolver.resolve "svc.ns:80" (7 : Nat) emptyWorld = .ok (r, w2)) ∧
      Resolver.resolve "svc.ns:80" (7 : Nat) deadWorld = .panicked "unbounded can't fail" :=
  ⟨(C7_unbounded_send_panics_only_when_receiver_dead "svc.ns:80" 7 emptyWorld).1 rfl,
    (C7_unbounded_send_panics_only_when_receiver_dead "svc.ns:80" 7 deadWorld).2 rfl⟩

/-- Witness for C10: a failed-bind poll has still consumed its update. -/
theorem C10_witness :
    (Resolution.poll bindFailNat chInsert).2.pending = [] :=
  (C10_poll_consumes_at_most_one bindFailNat chInsert).2.1
    (.Insert "10.0.0.1:80" Metadata.no_metadata) [] rfl

end Conduit.Destination
